import Mathlib

set_option maxRecDepth 4000

/- Shallow embedding of `src/server.py` from the unusualwhales-mcp repository.

   The file models the three reusable pieces shared by the seven tools:
   the query-parameter filter (a dict comprehension over the function's
   declared parameters and defaults), the response normalizer (the `data`
   field of the decoded JSON body turned into a polars DataFrame with
   per-endpoint column casts and time-zone conversion), and the
   except-clause ladder classifying httpx failures. -/

/-! ## Python parameter values and Python value equality -/

inductive PVal
  | pNone
  | pBool (b : Bool)
  | pInt (n : Int)
  | pFloat (q : Rat)
  | pStr (s : String)
  | pList (xs : List String)
  deriving DecidableEq

def PVal.asNum : PVal → Option Rat
  | .pBool b => some (if b then 1 else 0)
  | .pInt n => some n
  | .pFloat q => some q
  | _ => none

/-- Python `==`: bool, int and float compare numerically; other values
    compare by structure; distinct kinds are unequal. -/
def pyEq (a b : PVal) : Bool :=
  match a.asNum, b.asNum with
  | some x, some y => x == y
  | _, _ =>
    match a, b with
    | .pNone, .pNone => true
    | .pStr s, .pStr t => s == t
    | .pList xs, .pList ys => xs == ys
    | _, _ => false

/-- One declared tool parameter: its wire name and declared default value. -/
structure ParamSpec where
  pname : String
  dflt : PVal
  deriving DecidableEq

/-! ## The parameter filter (the dict comprehension in each tool) -/

/-- Mirrors the comprehension condition: the provided value `is not None`,
    `!=` the declared default (value equality), and the name is not one of
    the excluded locals (`url`, `frame`, and for institution holdings the
    path parameter `name`). -/
def includeParam (excl : List String) (p : ParamSpec) (v : PVal) : Bool :=
  (v != PVal.pNone) && !(pyEq v p.dflt) && !(excl.contains p.pname)

/-- The dict comprehension building the outgoing query mapping; insertion
    order follows the declared parameter order. -/
def buildQuery (schema : List ParamSpec) (excl : List String)
    (args : String → PVal) : List (String × PVal) :=
  (schema.filter (fun p => includeParam excl p (args p.pname))).map
    (fun p => (p.pname, args p.pname))

def queryKeys (ps : List (String × PVal)) : List String := ps.map (fun e => e.1)

def lookupVal (ps : List (String × PVal)) (k : String) : Option PVal :=
  (ps.find? (fun e => e.1 == k)).map (fun e => e.2)

/-- Declared parameters and defaults of get_flow_alerts, in source order. -/
def flowAlertsSchema : List ParamSpec := [
  ⟨"all_opening", .pBool false⟩,
  ⟨"is_ask_side", .pBool false⟩,
  ⟨"is_bid_side", .pBool false⟩,
  ⟨"is_call", .pBool false⟩,
  ⟨"is_floor", .pBool false⟩,
  ⟨"is_otm", .pBool false⟩,
  ⟨"is_put", .pBool false⟩,
  ⟨"is_sweep", .pBool false⟩,
  ⟨"issue_types", .pNone⟩,
  ⟨"limit", .pInt 200⟩,
  ⟨"max_diff", .pFloat 0⟩,
  ⟨"max_dte", .pInt 0⟩,
  ⟨"max_open_interest", .pInt 0⟩,
  ⟨"max_premium", .pInt 0⟩,
  ⟨"max_size", .pInt 0⟩,
  ⟨"max_volume", .pInt 0⟩,
  ⟨"max_volume_oi_ratio", .pFloat 0⟩,
  ⟨"min_diff", .pFloat 0⟩,
  ⟨"min_dte", .pInt 0⟩,
  ⟨"min_open_interest", .pInt 0⟩,
  ⟨"min_premium", .pInt 0⟩,
  ⟨"min_size", .pInt 0⟩,
  ⟨"min_volume", .pInt 0⟩,
  ⟨"min_volume_oi_ratio", .pFloat 0⟩,
  ⟨"newer_than", .pNone⟩,
  ⟨"older_than", .pNone⟩,
  ⟨"rule_name", .pNone⟩,
  ⟨"ticker_symbol", .pNone⟩]

/-- Declared parameters and defaults of get_insider_transactions. -/
def insiderSchema : List ParamSpec := [
  ⟨"ticker_symbol", .pNone⟩,
  ⟨"min_value", .pNone⟩,
  ⟨"max_value", .pNone⟩,
  ⟨"min_price", .pNone⟩,
  ⟨"max_price", .pNone⟩,
  ⟨"owner_name", .pNone⟩,
  ⟨"sectors", .pNone⟩,
  ⟨"industries", .pNone⟩,
  ⟨"min_marketcap", .pNone⟩,
  ⟨"max_marketcap", .pNone⟩,
  ⟨"market_cap_size", .pNone⟩,
  ⟨"min_earnings_dte", .pNone⟩,
  ⟨"max_earnings_dte", .pNone⟩,
  ⟨"min_amount", .pNone⟩,
  ⟨"max_amount", .pNone⟩,
  ⟨"is_director", .pNone⟩,
  ⟨"is_officer", .pNone⟩,
  ⟨"is_s_p_500", .pNone⟩,
  ⟨"is_ten_percent_owner", .pNone⟩,
  ⟨"common_stock_only", .pNone⟩,
  ⟨"transaction_codes", .pNone⟩,
  ⟨"security_ad_codes", .pNone⟩,
  ⟨"limit", .pInt 500⟩,
  ⟨"page", .pInt 0⟩]

/-- `params['transaction_codes[]'] = params.pop('transaction_codes')`,
    guarded by the key being present with a list value; `pop` removes the
    entry and the assignment appends the new key at the end. -/
def rekey_transaction_codes (ps : List (String × PVal)) : List (String × PVal) :=
  match lookupVal ps ("transaction_codes") with
  | some (PVal.pList xs) =>
      (ps.filter (fun e => e.1 != "transaction_codes")) ++
        [("transaction_codes[]", PVal.pList xs)]
  | _ => ps

def get_flow_alerts_query (args : String → PVal) : List (String × PVal) :=
  buildQuery flowAlertsSchema ["url", "frame"] args

def get_insider_transactions_query (args : String → PVal) : List (String × PVal) :=
  rekey_transaction_codes (buildQuery insiderSchema ["url", "frame"] args)

/-- The declared default of a flow-alerts parameter (pNone off-schema). -/
def flowDefault (n : String) : PVal :=
  (((flowAlertsSchema.find? (fun p => p.pname == n)).map (fun p => p.dflt))).getD .pNone

def insiderDefault (n : String) : PVal :=
  (((insiderSchema.find? (fun p => p.pname == n)).map (fun p => p.dflt))).getD .pNone

/-! ## JSON values -/

inductive JVal
  | jNull
  | jBool (b : Bool)
  | jInt (n : Int)
  | jNum (q : Rat)
  | jStr (s : String)
  | jArr (xs : List JVal)
  | jObj (fields : List (String × JVal))

/-- Python falsiness (`if not data`). -/
def jFalsy : JVal → Bool
  | .jNull => true
  | .jBool b => !b
  | .jInt n => n == 0
  | .jNum q => q == 0
  | .jStr s => s.isEmpty
  | .jArr xs => xs.isEmpty
  | .jObj fs => fs.isEmpty

/-- Python dict `.get` on a decoded JSON object. -/
def jGet (j : JVal) (k : String) : Option JVal :=
  match j with
  | .jObj fs => (fs.find? (fun f => f.1 == k)).map (fun f => f.2)
  | _ => none

/-! ## Calendar arithmetic (for polars date and datetime values)

The model counts days from 1600-01-01 (proleptic Gregorian) and stores
instants as seconds relative to the Unix epoch, which supports every
timestamp the API can return. -/

def isLeap (y : Nat) : Bool := (y % 4 == 0 && y % 100 != 0) || (y % 400 == 0)

def monthDays (y : Nat) : List Nat :=
  [31, if isLeap y then 29 else 28, 31, 30, 31, 30, 31, 31, 30, 31, 30, 31]

def daysInMonth (y m : Nat) : Nat := (monthDays y).getD (m - 1) 0

/-- Days from 1600-01-01 to y-01-01 (y at least 1600). -/
def daysTo1stJan (y : Nat) : Nat :=
  (List.range (y - 1600)).foldl
    (fun acc i => acc + (if isLeap (1600 + i) then 366 else 365)) 0

/-- Zero-based day index of a date inside its year. -/
def dayOfYear (y m d : Nat) : Nat :=
  ((monthDays y).take (m - 1)).foldl (fun a b => a + b) 0 + (d - 1)

def days1600 (y m d : Nat) : Nat := daysTo1stJan y + dayOfYear y m d

/-- Days from 1600-01-01 to the Unix epoch 1970-01-01. -/
def epochShiftDays : Nat := days1600 1970 1 1

/-- Seconds since the Unix epoch of a UTC civil time (year at least 1600). -/
def epochOfCivil (y mo d h mi s : Nat) : Int :=
  ((days1600 y mo d : Int) - (epochShiftDays : Int)) * 86400 +
    ((h * 3600 + mi * 60 + s : Nat) : Int)

def findYear : Nat → Nat → Nat → Nat × Nat
  | 0, y, days => (y, days)
  | fuel + 1, y, days =>
      let len := if isLeap y then 366 else 365
      if days < len then (y, days) else findYear fuel (y + 1) (days - len)

def findMonth : List Nat → Nat → Nat → Nat × Nat
  | [], m, days => (m, days)
  | len :: rest, m, days =>
      if days < len then (m, days) else findMonth rest (m + 1) (days - len)

/-- Civil date of a day index counted from the Unix epoch. -/
def civilOfEpochDay (z : Int) : Nat × Nat × Nat :=
  let n := (z + (epochShiftDays : Int)).toNat
  let yr := findYear 1200 1600 n
  let md := findMonth (monthDays yr.1) 1 yr.2
  (yr.1, md.1, md.2 + 1)

/-- UTC civil time (y, m, d, h, mi, s) of an epoch instant. -/
def civilOfEpoch (t : Int) : Nat × Nat × Nat × Nat × Nat × Nat :=
  let day := Int.ediv t 86400
  let secs := (t - day * 86400).toNat
  let ymd := civilOfEpochDay day
  (ymd.1, ymd.2.1, ymd.2.2, secs / 3600, secs % 3600 / 60, secs % 60)

/-- Day of week of an epoch day index, 0 = Sunday (1970-01-01 was a Thursday). -/
def weekdayOfEpochDay (z : Int) : Nat := ((z + 4).emod 7).toNat

def epochDayOf (y m d : Nat) : Int := (days1600 y m d : Int) - (epochShiftDays : Int)

/-- Day of month of the first Sunday of the given month. -/
def firstSundayDay (y m : Nat) : Nat :=
  1 + ((7 - weekdayOfEpochDay (epochDayOf y m 1)) % 7)

/-- America/New_York daylight saving (post-2007 federal rule, as in the tz
    database): from 02:00 EST on the second Sunday of March (07:00 UTC)
    until 02:00 EDT on the first Sunday of November (06:00 UTC). -/
def nyDstStart (y : Nat) : Int := epochOfCivil y 3 (firstSundayDay y 3 + 7) 7 0 0

def nyDstEnd (y : Nat) : Int := epochOfCivil y 11 (firstSundayDay y 11) 6 0 0

def nyIsDst (t : Int) : Bool :=
  let c := civilOfEpoch t
  decide (nyDstStart c.1 ≤ t ∧ t < nyDstEnd c.1)

/-- UTC offset of America/New_York at an instant, in seconds. -/
def nyOffsetSecs (t : Int) : Int := if nyIsDst t then -14400 else -18000

/-! ## Polars cells and DataFrames -/

/-- A materialized cell of a polars column.  Non-scalar JSON values kept in
    a cell (nested sequences and objects) are stored as raw JSON. -/
inductive Cell
  | cNull
  | cBool (b : Bool)
  | cInt (n : Int)
  | cFloat (q : Rat)
  | cDec (q : Rat)
  | cDate (y m d : Nat)
  | cStr (s : String)
  | cDatetime (t : Int) (tz : Option String)
  | cList (xs : List JVal)
  | cObj (fs : List (String × JVal))

/-- JSON-inferred cell of a record value (pass-through typing). -/
def toCell : JVal → Cell
  | .jNull => .cNull
  | .jBool b => .cBool b
  | .jInt n => .cInt n
  | .jNum q => .cFloat q
  | .jStr s => .cStr s
  | .jArr xs => .cList xs
  | .jObj fs => .cObj fs

/-- Column-major DataFrame: named columns in order, rows aligned by index. -/
structure DFrame where
  columns : List (String × List Cell)

def emptyDF : DFrame := ⟨[]⟩

def DFrame.hasCol (df : DFrame) (c : String) : Bool :=
  df.columns.any (fun col => col.1 == c)

def DFrame.getCol (df : DFrame) (c : String) : Option (List Cell) :=
  (df.columns.find? (fun col => col.1 == c)).map (fun col => col.2)

def DFrame.height (df : DFrame) : Nat :=
  match df.columns with
  | [] => 0
  | col :: _ => col.2.length

def DFrame.setCol (df : DFrame) (c : String) (cells : List Cell) : DFrame :=
  ⟨df.columns.map (fun col => if col.1 == c then (c, cells) else col)⟩

/-- Exceptions that can abort normalization (KeyError from the `['data']`
    subscript, polars construction and cast failures, JSON decoding). -/
inductive PErr
  | keyError (k : String)
  | typeError (msg : String)
  | shapeError
  | columnNotFound (c : String)
  | invalidCast (c : String)
  | invalidTimeZoneOp (c : String)
  | jsonDecodeError
  deriving DecidableEq

def asObj : JVal → Option (List (String × JVal))
  | .jObj fs => some fs
  | _ => none

def dedupKeys (ks : List String) : List String :=
  ks.foldl (fun acc k => if acc.contains k then acc else acc ++ [k]) []

def recordKeys (recs : List (List (String × JVal))) : List String :=
  dedupKeys ((recs.map (fun r => r.map (fun f => f.1))).flatten)

/-- The cell a record contributes to a column: its value under that key,
    or null when the key is missing from this record. -/
def recordCell (r : List (String × JVal)) (c : String) : Cell :=
  match (r.find? (fun f => f.1 == c)).map (fun f => f.2) with
  | some v => toCell v
  | none => .cNull

/-- pl.DataFrame on a sequence of records: columns are the union of keys in
    first-appearance order; a key missing from one record yields null. -/
def dfFromRecords (xs : List JVal) : Except PErr DFrame :=
  match xs.mapM asObj with
  | none => .error (.typeError ("unexpected value type"))
  | some recs =>
      .ok ⟨(recordKeys recs).map (fun c => (c, recs.map (fun r => recordCell r c)))⟩

/-- pl.DataFrame on a single mapping: keys become columns, a sequence value
    becomes a column with one row per element, scalar values broadcast; the
    sequence values must agree in length. -/
def dfFromDict (fs : List (String × JVal)) : Except PErr DFrame :=
  let lens := fs.filterMap (fun f =>
    match f.2 with
    | .jArr xs => some xs.length
    | _ => none)
  let h := lens.headD 1
  if lens.all (fun l => l == h) then
    .ok ⟨fs.map (fun f =>
      (f.1, match f.2 with
        | .jArr xs => xs.map toCell
        | v => List.replicate h (toCell v)))⟩
  else
    .error .shapeError

/-- pl.DataFrame on the raw `data` value, for the endpoints that do not wrap
    a non-list value. -/
def dfFromData : JVal → Except PErr DFrame
  | .jArr xs => dfFromRecords xs
  | .jObj fs => dfFromDict fs
  | _ => .error (.typeError ("unexpected value type"))

/-! ## Field parsing and casts -/

def parseNatDigits (s : String) : Option Nat :=
  if s.length > 0 && s.all Char.isDigit then s.toNat? else none

def parseIntStr (s : String) : Option Int :=
  if s.startsWith ("-") then (parseNatDigits (s.drop 1)).map (fun n => -(n : Int))
  else (parseNatDigits s).map (fun n => (n : Int))

def parseDecMag (s : String) : Option Rat :=
  match s.splitOn (".") with
  | [w] => (parseNatDigits w).map (fun n => (n : Rat))
  | [w, f] => do
      let wn ← parseNatDigits w
      let fn ← parseNatDigits f
      pure ((wn : Rat) + (fn : Rat) / ((10 : Rat) ^ f.length))
  | _ => none

def parseDecStr (s : String) : Option Rat :=
  if s.startsWith ("-") then (parseDecMag (s.drop 1)).map (fun q => -q)
  else parseDecMag s

def parseDateStr (s : String) : Option (Nat × Nat × Nat) :=
  match s.splitOn ("-") with
  | [ys, ms, ds] =>
      if ys.length = 4 ∧ ms.length = 2 ∧ ds.length = 2 then do
        let y ← parseNatDigits ys
        let m ← parseNatDigits ms
        let d ← parseNatDigits ds
        if 1 ≤ m ∧ m ≤ 12 ∧ 1 ≤ d ∧ d ≤ daysInMonth y m then pure (y, m, d) else none
      else none
  | _ => none

/-- ISO 8601 timestamp parsing as done by the polars string-to-datetime
    cast; a trailing Z marks UTC and a naive timestamp is taken at face
    value, so either way the stored instant is the epoch value of the civil
    reading (fractional seconds dropped; years from 1600 on). -/
def parseDatetimeStr (s : String) : Option Int :=
  let s2 := if s.endsWith ("Z") then s.dropRight 1 else s
  let parts :=
    if (s2.splitOn ("T")).length = 2 then s2.splitOn ("T") else s2.splitOn (" ")
  match parts with
  | [ds, ts] => do
      let ymd ← parseDateStr ds
      if ymd.1 < 1600 then none else
      match ts.splitOn (":") with
      | [hs, mins, ss] => do
          let secStr := (ss.splitOn (".")).headD ss
          let h ← parseNatDigits hs
          let mi ← parseNatDigits mins
          let sec ← parseNatDigits secStr
          if hs.length = 2 ∧ mins.length = 2 ∧ secStr.length = 2 ∧
              h ≤ 23 ∧ mi ≤ 59 ∧ sec ≤ 59
          then pure (epochOfCivil ymd.1 ymd.2.1 ymd.2.2 h mi sec) else none
      | _ => none
  | _ => none

/-- The cast targets appearing in the endpoints' with_columns tables. -/
inductive CastTy
  | int64
  | decimalTy
  | dateTy
  | datetimeTy
  deriving DecidableEq

/-- Core polars cast of one cell; none is a cast failure.  Null always
    passes through as null. -/
def castCore (ty : CastTy) (c : Cell) : Option Cell :=
  match c with
  | .cNull => some .cNull
  | _ =>
    match ty, c with
    | .int64, .cInt n => some (.cInt n)
    | .int64, .cBool b => some (.cInt (if b then 1 else 0))
    | .int64, .cFloat q => some (.cInt (Int.tdiv q.num (q.den : Int)))
    | .int64, .cStr s => (parseIntStr s).map .cInt
    | .decimalTy, .cInt n => some (.cDec n)
    | .decimalTy, .cFloat q => some (.cDec q)
    | .decimalTy, .cDec q => some (.cDec q)
    | .decimalTy, .cStr s => (parseDecStr s).map .cDec
    | .dateTy, .cDate y m d => some (.cDate y m d)
    | .dateTy, .cStr s => (parseDateStr s).map (fun v => .cDate v.1 v.2.1 v.2.2)
    | .datetimeTy, .cDatetime t tz => some (.cDatetime t tz)
    | .datetimeTy, .cStr s => (parseDatetimeStr s).map (fun t => .cDatetime t none)
    | _, _ => none

/-- One strict=False cast applied to a column that exists: a failing cell
    becomes null. -/
def applyLenientCast (sp : String × CastTy) (df : DFrame) : DFrame :=
  df.setCol sp.1 (((df.getCol sp.1).getD []).map (fun c => (castCore sp.2 c).getD .cNull))

/-- with_columns with strict=False casts: any named column must exist, and
    a failing cast yields null (the tolerant style of every endpoint except
    flow-alerts). -/
def dfCastLenient (specs : List (String × CastTy)) (df : DFrame) : Except PErr DFrame :=
  match specs.find? (fun sp => !(df.hasCol sp.1)) with
  | some sp => .error (.columnNotFound sp.1)
  | none => .ok (specs.foldl (fun d sp => applyLenientCast sp d) df)

/-- with_columns with default strict casts (the flow-alerts style): any
    missing column or failing cast is an error. -/
def dfCastStrict (specs : List (String × CastTy)) (df : DFrame) : Except PErr DFrame :=
  match specs.find? (fun sp => !(df.hasCol sp.1)) with
  | some sp => .error (.columnNotFound sp.1)
  | none =>
      specs.foldlM (fun d sp => do
        let cells ← ((d.getCol sp.1).getD []).mapM (fun c =>
          match castCore sp.2 c with
          | some c2 => Except.ok c2
          | none => Except.error (PErr.invalidCast sp.1))
        pure (d.setCol sp.1 cells)) df

/-- dt.convert_time_zone: the stored instant is unchanged and the column
    becomes America/New_York-aware; a naive column is assumed to be UTC. -/
def convertCellNY : Cell → Option Cell
  | .cNull => some .cNull
  | .cDatetime t _ => some (.cDatetime t (some ("America/New_York")))
  | _ => none

def dfConvertNY (c : String) (df : DFrame) : Except PErr DFrame :=
  match df.getCol c with
  | none => .error (.columnNotFound c)
  | some cells =>
      match cells.mapM convertCellNY with
      | some cells2 => .ok (df.setCol c cells2)
      | none => .error (.invalidTimeZoneOp c)

/-! ## Per-endpoint normalizers (the success path of each tool) -/

/-- A decoded 2xx JSON response body (a JSON object at the top level). -/
abbrev Body := List (String × JVal)

/-- `rsp.json()['data']`: a strict subscript raising KeyError when absent. -/
def bodyGetStrict (b : Body) (k : String) : Except PErr JVal :=
  match (b.find? (fun f => f.1 == k)).map (fun f => f.2) with
  | some v => .ok v
  | none => .error (.keyError k)

/-- `rsp.json().get('data')`: None (modelled as null, equally falsy) when
    the key is absent. -/
def bodyGet (b : Body) (k : String) : JVal :=
  ((b.find? (fun f => f.1 == k)).map (fun f => f.2)).getD .jNull

def flowAlertsCastSpecs : List (String × CastTy) := [
  ("created_at", .datetimeTy),
  ("expiry", .dateTy),
  ("next_earnings_date", .dateTy),
  ("total_ask_side_prem", .int64),
  ("total_bid_side_prem", .int64),
  ("total_premium", .int64),
  ("ask", .decimalTy),
  ("bid", .decimalTy),
  ("iv_end", .decimalTy),
  ("iv_start", .decimalTy),
  ("marketcap", .decimalTy),
  ("price", .decimalTy),
  ("strike", .decimalTy),
  ("underlying_price", .decimalTy),
  ("volume_oi_ratio", .decimalTy)]

/-- get_flow_alerts: `data = rsp.json()['data']`; falsy data yields an empty
    frame; otherwise strict casts, then the created_at zone conversion. -/
def get_flow_alerts_normalize (b : Body) : Except PErr DFrame := do
  let data ← bodyGetStrict b ("data")
  if jFalsy data then pure emptyDF
  else do
    let df ← dfFromData data
    let df2 ← dfCastStrict flowAlertsCastSpecs df
    dfConvertNY ("created_at") df2

/-- The ticker-info pattern `if 'col' in df.columns: df = df.with_columns(
    pl.col('col').cast(ty, strict=False))`: the cast runs only when the
    column exists. -/
def guardedCast (c : String) (ty : CastTy) (df : DFrame) : Except PErr DFrame :=
  if df.hasCol c then dfCastLenient [(c, ty)] df else pure df

/-- get_ticker_info: `.get('data')`, falsy check, wrap a non-list value in a
    one-element list, then column-guarded strict=False casts. -/
def get_ticker_info_normalize (b : Body) : Except PErr DFrame := do
  let data := bodyGet b ("data")
  if jFalsy data then pure emptyDF
  else do
    let recs := match data with
      | .jArr xs => xs
      | v => [v]
    let df ← dfFromRecords recs
    let df2 ← guardedCast ("next_earnings_date") .dateTy df
    let df3 ← guardedCast ("avg30_volume") .int64 df2
    let df4 ← guardedCast ("marketcap") .decimalTy df3
    pure df4

def stockStateCastSpecs : List (String × CastTy) := [
  ("close", .decimalTy),
  ("high", .decimalTy),
  ("low", .decimalTy),
  ("open", .decimalTy),
  ("tape_time", .datetimeTy),
  ("total_volume", .int64),
  ("volume", .int64)]

/-- get_stock_state: `.get('data')`, falsy check, wrap a non-list value,
    strict=False casts (unguarded), then the tape_time zone conversion. -/
def get_stock_state_normalize (b : Body) : Except PErr DFrame := do
  let data := bodyGet b ("data")
  if jFalsy data then pure emptyDF
  else do
    let recs := match data with
      | .jArr xs => xs
      | v => [v]
    let df ← dfFromRecords recs
    let df2 ← dfCastLenient stockStateCastSpecs df
    dfConvertNY ("tape_time") df2

def institutionCastSpecs : List (String × CastTy) := [
  ("avg_price", .decimalTy),
  ("close", .decimalTy),
  ("date", .dateTy),
  ("first_buy", .dateTy),
  ("price_first_buy", .decimalTy),
  ("shares_outstanding", .decimalTy),
  ("units", .int64),
  ("units_change", .int64),
  ("value", .int64)]

/-- get_institution_holdings: `.get('data')`, falsy check, no wrapping,
    strict=False casts (unguarded). -/
def get_institution_holdings_normalize (b : Body) : Except PErr DFrame := do
  let data := bodyGet b ("data")
  if jFalsy data then pure emptyDF
  else do
    let df ← dfFromData data
    dfCastLenient institutionCastSpecs df

def insiderCastSpecs : List (String × CastTy) := [
  ("amount", .int64),
  ("date_excercisable", .dateTy),
  ("expiration_date", .dateTy),
  ("filing_date", .dateTy),
  ("marketcap", .decimalTy),
  ("next_earnings_date", .dateTy),
  ("price", .decimalTy),
  ("price_excercisable", .decimalTy),
  ("shares_owned_after", .int64),
  ("shares_owned_before", .int64),
  ("stock_price", .decimalTy),
  ("transaction_date", .dateTy),
  ("transactions", .int64)]

/-- get_insider_transactions: `.get('data')`, falsy check, no wrapping,
    strict=False casts (unguarded). -/
def get_insider_transactions_normalize (b : Body) : Except PErr DFrame := do
  let data := bodyGet b ("data")
  if jFalsy data then pure emptyDF
  else do
    let df ← dfFromData data
    dfCastLenient insiderCastSpecs df

def congressCastSpecs : List (String × CastTy) := [
  ("filed_at_date", .dateTy),
  ("transaction_date", .dateTy)]

/-- get_congress_trades: `.get('data')`, falsy check, no wrapping,
    strict=False casts (unguarded). -/
def get_congress_trades_normalize (b : Body) : Except PErr DFrame := do
  let data := bodyGet b ("data")
  if jFalsy data then pure emptyDF
  else do
    let df ← dfFromData data
    dfCastLenient congressCastSpecs df

/-- get_news_headlines: `.get('data')`, falsy check, no wrapping, a
    strict=False created_at cast, then its zone conversion. -/
def get_news_headlines_normalize (b : Body) : Except PErr DFrame := do
  let data := bodyGet b ("data")
  if jFalsy data then pure emptyDF
  else do
    let df ← dfFromData data
    let df2 ← dfCastLenient [("created_at", .datetimeTy)] df
    dfConvertNY ("created_at") df2

/-! ## The HTTP layer: exceptions and the except-clause ladder -/

/-- An exception raised inside the per-tool try block, as matched by the
    except clauses.  httpx class facts used by the model: TimeoutException
    is a subclass of TransportError, which is a subclass of RequestError;
    HTTPStatusError (raised by raise_for_status on a non-2xx response) is
    not a RequestError.  For a status error the model carries the status
    code, the response text, and the decoded response JSON (none when the
    body is empty or not JSON, where `.json()` would raise). -/
inductive PyExc
  | httpStatus (code : Nat) (text : String) (json : Option JVal)
  | transport (isTimeout : Bool) (desc : String)

def isHTTPStatusError : PyExc → Bool
  | .httpStatus _ _ _ => true
  | _ => false

/-- httpx.RequestError also matches every timeout, because
    httpx.TimeoutException subclasses it. -/
def isRequestError : PyExc → Bool
  | .transport _ _ => true
  | _ => false

def isTimeoutException : PyExc → Bool
  | .transport tm _ => tm
  | _ => false

/-- What a tool call raises: the ValueError / ConnectionError / TimeoutError
    raised by the handlers, or an uncaught normalization exception. -/
inductive ToolErr
  | valueError (msg : String)
  | connectionError (msg : String)
  | timeoutError (msg : String)
  | normError (e : PErr)
  | uncaught
  deriving DecidableEq

/-- The shared except-clause ladder, tried in source order: HTTPStatusError,
    then RequestError, then TimeoutException.  Because TimeoutException is a
    RequestError subclass, the RequestError clause already captures every
    timeout and the TimeoutException clause is unreachable. -/
def exceptLadder (statusHandler : Nat → String → Option JVal → Except ToolErr DFrame)
    (e : PyExc) : Except ToolErr DFrame :=
  if isHTTPStatusError e then
    match e with
    | .httpStatus c t j => statusHandler c t j
    | _ => .error .uncaught
  else if isRequestError e then
    match e with
    | .transport _ d => .error (.connectionError ("Network error: " ++ d))
    | _ => .error .uncaught
  else if isTimeoutException e then
    .error (.timeoutError ("Request timed out"))
  else
    .error .uncaught

/-- The status branch shared by flow-alerts, stock-state, insider
    transactions, congress trades and news headlines. -/
def standardStatusHandler (c : Nat) (t : String) (_j : Option JVal) :
    Except ToolErr DFrame :=
  if c == 401 then .error (.valueError ("Invalid or missing API key"))
  else if c == 404 then .error (.valueError ("Resource not found: " ++ t))
  else if c == 429 then .error (.valueError ("Rate limit exceeded"))
  else .error (.valueError ("HTTP error: " ++ toString c ++ " - " ++ t))

/-- get_institution_holdings differs only in the 404 message, which names
    the institution path parameter. -/
def institutionStatusHandler (name : String) (c : Nat) (t : String)
    (_j : Option JVal) : Except ToolErr DFrame :=
  if c == 401 then .error (.valueError ("Invalid or missing API key"))
  else if c == 404 then
    .error (.valueError ("Resource not found for institution " ++ name ++ ": " ++ t))
  else if c == 429 then .error (.valueError ("Rate limit exceeded"))
  else .error (.valueError ("HTTP error: " ++ toString c ++ " - " ++ t))

/-- `error_data.get('message') == 'Not Found'` on the decoded 404 body. -/
def msgIsNotFound (ed : JVal) : Bool :=
  match jGet ed ("message") with
  | some (JVal.jStr s) => s == "Not Found"
  | _ => false

/-- get_ticker_info's status branch.  On 404 an inner try decodes the error
    body: an undecodable body raises, a falsy body or a message equal to
    'Not Found' returns an empty frame, anything else raises ValueError —
    and the inner `except Exception` turns every one of those raises into a
    logged warning plus an empty frame. -/
def tickerStatusHandler (c : Nat) (t : String) (j : Option JVal) :
    Except ToolErr DFrame :=
  if c == 401 then .error (.valueError ("Invalid or missing API key"))
  else if c == 404 then
    let inner : Except ToolErr DFrame :=
      match j with
      | none => .error (.normError .jsonDecodeError)
      | some ed =>
          if jFalsy ed || msgIsNotFound ed then
            .ok emptyDF
          else
            .error (.valueError ("Resource not found: " ++ t))
    match inner with
    | .ok df => .ok df
    | .error _ => .ok emptyDF
  else if c == 429 then .error (.valueError ("Rate limit exceeded"))
  else .error (.valueError ("HTTP error: " ++ toString c ++ " - " ++ t))

/-- The observable outcome of the single GET issued by a tool call: a
    decoded 2xx JSON body, or an exception from the client or from
    raise_for_status. -/
inductive Outcome
  | success (body : Body)
  | exc (e : PyExc)

/-- A whole tool call given the GET's outcome: normalize on success (an
    exception escaping normalization propagates — the trailing
    `except Exception` blocks only log and re-raise), or run the
    except-clause ladder. -/
def runTool (normalize : Body → Except PErr DFrame)
    (statusHandler : Nat → String → Option JVal → Except ToolErr DFrame)
    (o : Outcome) : Except ToolErr DFrame :=
  match o with
  | .success b => (normalize b).mapError ToolErr.normError
  | .exc e => exceptLadder statusHandler e

def get_flow_alerts_call (o : Outcome) : Except ToolErr DFrame :=
  runTool get_flow_alerts_normalize standardStatusHandler o

def get_ticker_info_call (o : Outcome) : Except ToolErr DFrame :=
  runTool get_ticker_info_normalize tickerStatusHandler o

def get_stock_state_call (o : Outcome) : Except ToolErr DFrame :=
  runTool get_stock_state_normalize standardStatusHandler o

def get_institution_holdings_call (name : String) (o : Outcome) :
    Except ToolErr DFrame :=
  runTool get_institution_holdings_normalize (institutionStatusHandler name) o

def get_insider_transactions_call (o : Outcome) : Except ToolErr DFrame :=
  runTool get_insider_transactions_normalize standardStatusHandler o

def get_congress_trades_call (o : Outcome) : Except ToolErr DFrame :=
  runTool get_congress_trades_normalize standardStatusHandler o

def get_news_headlines_call (o : Outcome) : Except ToolErr DFrame :=
  runTool get_news_headlines_normalize standardStatusHandler o

/-- `httpx.Client(timeout=30.0)` in every tool. -/
def httpClientTimeoutSeconds : Rat := 30

/-! ## Observation helpers used by the theorems -/

def resHeight (r : Except ToolErr DFrame) : Option Nat :=
  match r with
  | .ok df => some df.height
  | .error _ => none

/-- First-row cell of a column of a successful result. -/
def resCell (r : Except ToolErr DFrame) (c : String) : Option Cell :=
  match r with
  | .ok df => (df.getCol c).bind (fun cells => cells.head?)
  | .error _ => none

/-- The wall-clock reading of a datetime cell: the stored instant shifted
    by the America/New_York offset when the cell carries that zone. -/
def localClock : Cell → Option (Nat × Nat × Nat × Nat × Nat × Nat)
  | .cDatetime t tz =>
      some (civilOfEpoch (t + (match tz with
        | some _ => nyOffsetSecs t
        | none => 0)))
  | _ => none

/-- Does every list-valued entry of a query mapping signal an array of
    values by the `[]` key suffix (the re-keying convention the source uses
    for transaction_codes)? -/
def listParamsRekeyed (ps : List (String × PVal)) : Bool :=
  ps.all (fun e =>
    match e.2 with
    | .pList _ => e.1.endsWith ("[]")
    | _ => true)

/-- Row i cell of a column of a successful result. -/
def resCellAt (r : Except ToolErr DFrame) (c : String) (i : Nat) : Option Cell :=
  match r with
  | .ok df => (df.getCol c).bind (fun cells => cells[i]?)
  | .error _ => none

/-- The frame pl.DataFrame builds from a one-record list. -/
def singleRecordDF (r : List (String × JVal)) : DFrame :=
  ⟨(recordKeys [r]).map (fun c => (c, [recordCell r c]))⟩

/-! ## Concrete call arguments and response bodies used by the theorems -/

/-- flow-alerts call with is_call=true, everything else left at default. -/
def flowIsCallArgs : String → PVal :=
  fun n => if n == "is_call" then .pBool true else flowDefault n

/-- flow-alerts call with issue_types set to a list, all else at default. -/
def flowIssueTypesArgs (xs : List String) : String → PVal :=
  fun n => if n == "issue_types" then .pList xs else flowDefault n

/-- insider-transactions call with transaction_codes set, all else default. -/
def insiderTCArgs : String → PVal :=
  fun n => if n == "transaction_codes" then .pList ["P", "S"] else insiderDefault n

/-- A congress-trades `data` that is one mapping whose values are
    two-element sequences. -/
def congressSeqMapping : JVal :=
  .jObj [
    ("filed_at_date", .jArr [.jStr ("2024-01-05"), .jStr ("2024-01-06")]),
    ("transaction_date", .jArr [.jStr ("2024-01-03"), .jStr ("2024-01-04")]),
    ("ticker", .jArr [.jStr ("AAPL"), .jStr ("MSFT")])]

/-- A congress-trades `data` that is one mapping with scalar values. -/
def congressScalarMapping : JVal :=
  .jObj [
    ("filed_at_date", .jStr ("2024-01-05")),
    ("transaction_date", .jStr ("2024-01-03")),
    ("ticker", .jStr ("AAPL"))]

/-- A stock-state `data` that is one mapping with every coerced field. -/
def stockScalarMapping : JVal :=
  .jObj [
    ("open", .jStr ("185.5")),
    ("high", .jStr ("187.0")),
    ("low", .jStr ("184.0")),
    ("close", .jStr ("186.0")),
    ("tape_time", .jStr ("2024-01-15T20:30:00Z")),
    ("total_volume", .jInt 1000),
    ("volume", .jInt 500)]

/-- A stock-state record whose close value is malformed. -/
def stockMalformedCloseRecord : JVal :=
  .jObj [
    ("open", .jStr ("185.5")),
    ("high", .jStr ("187.0")),
    ("low", .jStr ("184.0")),
    ("close", .jStr ("abc")),
    ("tape_time", .jStr ("2024-01-15T20:30:00Z")),
    ("total_volume", .jInt 1000),
    ("volume", .jInt 500)]

/-- Two stock-state records; the second record has no close field. -/
def stockTwoRecords : JVal :=
  .jArr [
    .jObj [
      ("open", .jStr ("185.5")),
      ("high", .jStr ("187.0")),
      ("low", .jStr ("184.0")),
      ("close", .jStr ("201.5")),
      ("tape_time", .jStr ("2024-01-15T20:30:00Z")),
      ("total_volume", .jInt 1000),
      ("volume", .jInt 500)],
    .jObj [
      ("open", .jStr ("186.5")),
      ("high", .jStr ("188.0")),
      ("low", .jStr ("185.0")),
      ("tape_time", .jStr ("2024-01-15T20:31:00Z")),
      ("total_volume", .jInt 1100),
      ("volume", .jInt 100)]]

/-- A full flow-alerts record; created_at is a UTC tape timestamp and
    expiry and next_earnings_date are date-only fields. -/
def flowTapeRecord : JVal :=
  .jObj [
    ("created_at", .jStr ("2024-01-15T20:30:00Z")),
    ("expiry", .jStr ("2025-01-17")),
    ("next_earnings_date", .jStr ("2024-04-25")),
    ("total_ask_side_prem", .jInt 1000),
    ("total_bid_side_prem", .jInt 500),
    ("total_premium", .jInt 1500),
    ("ask", .jStr ("1.25")),
    ("bid", .jStr ("1.20")),
    ("iv_end", .jStr ("0.55")),
    ("iv_start", .jStr ("0.50")),
    ("marketcap", .jStr ("2500000000")),
    ("price", .jStr ("1.22")),
    ("strike", .jStr ("150")),
    ("underlying_price", .jStr ("148.5")),
    ("volume_oi_ratio", .jStr ("1.5")),
    ("ticker", .jStr ("AAPL"))]

/-- The same flow-alerts record with a malformed created_at value. -/
def flowMalformedCreatedAtRecord : JVal :=
  .jObj [
    ("created_at", .jStr ("garbage")),
    ("expiry", .jStr ("2025-01-17")),
    ("next_earnings_date", .jStr ("2024-04-25")),
    ("total_ask_side_prem", .jInt 1000),
    ("total_bid_side_prem", .jInt 500),
    ("total_premium", .jInt 1500),
    ("ask", .jStr ("1.25")),
    ("bid", .jStr ("1.20")),
    ("iv_end", .jStr ("0.55")),
    ("iv_start", .jStr ("0.50")),
    ("marketcap", .jStr ("2500000000")),
    ("price", .jStr ("1.22")),
    ("strike", .jStr ("150")),
    ("underlying_price", .jStr ("148.5")),
    ("volume_oi_ratio", .jStr ("1.5")),
    ("ticker", .jStr ("AAPL"))]

/-- A news-headlines record with a UTC created_at. -/
def newsRecord : JVal :=
  .jObj [
    ("created_at", .jStr ("2024-01-15T20:30:00Z")),
    ("headline", .jStr ("Example headline"))]

/-! ## Helper lemmas -/

theorem except_bind_ok {ε α β : Type} (a : α) (f : α → Except ε β) :
    (Except.ok a : Except ε α) >>= f = f a := rfl

/-- A name appears among the query keys exactly when some schema entry with
    that name passes the inclusion test. -/
theorem mem_queryKeys_buildQuery {schema : List ParamSpec} {excl : List String}
    {args : String → PVal} {n : String} :
    n ∈ queryKeys (buildQuery schema excl args) ↔
      ∃ p, p ∈ schema ∧ p.pname = n ∧ includeParam excl p (args p.pname) = true := by
  simp only [queryKeys, buildQuery, List.map_map, List.mem_map, List.mem_filter,
    Function.comp_apply]
  constructor
  · rintro ⟨p, ⟨hp, hinc⟩, rfl⟩
    exact ⟨p, hp, rfl, hinc⟩
  · rintro ⟨p, hp, rfl, hinc⟩
    exact ⟨p, ⟨hp, hinc⟩, rfl⟩

theorem mem_buildQuery_of {schema : List ParamSpec} {excl : List String}
    {args : String → PVal} {p : ParamSpec} (hp : p ∈ schema)
    (hinc : includeParam excl p (args p.pname) = true) :
    (p.pname, args p.pname) ∈ buildQuery schema excl args := by
  simp only [buildQuery, List.mem_map]
  exact ⟨p, List.mem_filter.mpr ⟨hp, hinc⟩, rfl⟩

theorem flowAlertsSchema_names_nodup :
    ((flowAlertsSchema.map (fun p => p.pname))).Nodup := by decide

theorem flowAlertsSchema_not_excluded :
    ∀ p ∈ flowAlertsSchema, ((["url", "frame"] : List String).contains p.pname) = false := by
  decide


theorem setCol_colNames (df : DFrame) (c : String) (cells : List Cell) :
    (df.setCol c cells).columns.map (fun col => col.1) =
      df.columns.map (fun col => col.1) := by
  unfold DFrame.setCol
  simp only [List.map_map]
  refine List.map_congr_left ?_
  intro col _
  simp only [Function.comp_apply]
  by_cases h : col.1 = c
  · simp [h]
  · simp [beq_eq_false_iff_ne.mpr h]

theorem applyLenientCast_colNames (sp : String × CastTy) (df : DFrame) :
    (applyLenientCast sp df).columns.map (fun col => col.1) =
      df.columns.map (fun col => col.1) :=
  setCol_colNames df sp.1 _

theorem applyLenientCast_height (sp : String × CastTy) (df : DFrame) :
    (applyLenientCast sp df).height = df.height := by
  unfold applyLenientCast DFrame.setCol DFrame.getCol DFrame.height
  cases hcols : df.columns with
  | nil => rfl
  | cons col rest =>
      simp only [List.map_cons, List.find?]
      by_cases h : col.1 = sp.1
      · have hb : (col.1 == sp.1) = true := beq_iff_eq.mpr h
        simp [hb]
      · have hb : (col.1 == sp.1) = false := beq_eq_false_iff_ne.mpr h
        simp [hb]

theorem foldl_lenient_height (specs : List (String × CastTy)) (df : DFrame) :
    (specs.foldl (fun d sp => applyLenientCast sp d) df).height = df.height := by
  induction specs generalizing df with
  | nil => rfl
  | cons sp rest ih => rw [List.foldl_cons, ih, applyLenientCast_height]

theorem foldl_lenient_colNames (specs : List (String × CastTy)) (df : DFrame) :
    (specs.foldl (fun d sp => applyLenientCast sp d) df).columns.map (fun col => col.1) =
      df.columns.map (fun col => col.1) := by
  induction specs generalizing df with
  | nil => rfl
  | cons sp rest ih => rw [List.foldl_cons, ih, applyLenientCast_colNames]

theorem dfCastLenient_ok {specs : List (String × CastTy)} {df : DFrame}
    (h : ∀ sp ∈ specs, df.hasCol sp.1 = true) :
    dfCastLenient specs df =
      .ok (specs.foldl (fun d sp => applyLenientCast sp d) df) := by
  unfold dfCastLenient
  have hnone : specs.find? (fun sp => !(df.hasCol sp.1)) = none := by
    rw [List.find?_eq_none]
    intro sp hsp
    simp [h sp hsp]
  rw [hnone]

/-- A column-guarded strict=False cast (the ticker-info style) always
    succeeds and preserves the height and the column names. -/
theorem guarded_lenient_height (c : String) (ty : CastTy) (df : DFrame) :
    ∃ df2, guardedCast c ty df = Except.ok df2 ∧
      df2.height = df.height ∧
      df2.columns.map (fun col => col.1) = df.columns.map (fun col => col.1) := by
  unfold guardedCast
  by_cases h : df.hasCol c = true
  · rw [if_pos h, dfCastLenient_ok]
    · exact ⟨_, rfl, foldl_lenient_height _ _, foldl_lenient_colNames _ _⟩
    · intro sp hsp
      simp only [List.mem_singleton] at hsp
      subst hsp
      exact h
  · rw [if_neg h]
    exact ⟨df, rfl, rfl, rfl⟩

theorem dedupFold_len (l : List String) (acc : List String) :
    acc.length ≤
      (l.foldl (fun acc2 k => if acc2.contains k then acc2 else acc2 ++ [k]) acc).length := by
  induction l generalizing acc with
  | nil => simp
  | cons k rest ih =>
      rw [List.foldl_cons]
      refine le_trans ?_ (ih _)
      split <;> simp

theorem dedupKeys_ne_nil {l : List String} (h : l ≠ []) : dedupKeys l ≠ [] := by
  cases l with
  | nil => exact absurd rfl h
  | cons k rest =>
      unfold dedupKeys
      intro hnil
      have hlen := dedupFold_len rest [k]
      rw [List.foldl_cons] at hnil
      have hstep : (if ([] : List String).contains k then ([] : List String)
          else [] ++ [k]) = [k] := rfl
      rw [hstep] at hnil
      rw [hnil] at hlen
      simp at hlen

theorem dfFromRecords_single (r : List (String × JVal)) :
    dfFromRecords [JVal.jObj r] = .ok (singleRecordDF r) := rfl

theorem singleRecordDF_height {r : List (String × JVal)} (h : r ≠ []) :
    (singleRecordDF r).height = 1 := by
  have hne : recordKeys [r] ≠ [] := by
    unfold recordKeys
    apply dedupKeys_ne_nil
    simp [h]
  obtain ⟨c0, ctail, hcols⟩ := List.exists_cons_of_ne_nil hne
  unfold singleRecordDF DFrame.height
  rw [hcols]
  rfl

/-- The ticker-info success path on a body whose data is one non-empty
    mapping: it always succeeds with a one-row frame. -/
theorem ticker_single_ok (r : List (String × JVal)) (h : r ≠ []) :
    ∃ df : DFrame,
      get_ticker_info_normalize [("data", JVal.jObj r)] = Except.ok df ∧
      df.height = 1 := by
  cases r with
  | nil => exact absurd rfl h
  | cons f rest =>
      have hform : get_ticker_info_normalize [("data", JVal.jObj (f :: rest))] =
          (dfFromRecords [JVal.jObj (f :: rest)] >>= fun df =>
            guardedCast ("next_earnings_date") CastTy.dateTy df >>= fun dfa =>
            guardedCast ("avg30_volume") CastTy.int64 dfa >>= fun dfb =>
            guardedCast ("marketcap") CastTy.decimalTy dfb >>= fun dfc =>
            pure dfc) := rfl
      obtain ⟨df2, h2, hh2, _⟩ :=
        guarded_lenient_height ("next_earnings_date") CastTy.dateTy
          (singleRecordDF (f :: rest))
      obtain ⟨df3, h3, hh3, _⟩ :=
        guarded_lenient_height ("avg30_volume") CastTy.int64 df2
      obtain ⟨df4, h4, hh4, _⟩ :=
        guarded_lenient_height ("marketcap") CastTy.decimalTy df3
      refine ⟨df4, ?_, by
        rw [hh4, hh3, hh2, singleRecordDF_height (List.cons_ne_nil f rest)]⟩
      rw [hform, dfFromRecords_single]
      simp only [except_bind_ok]
      rw [h2]
      simp only [except_bind_ok]
      rw [h3]
      simp only [except_bind_ok]
      rw [h4]
      simp only [except_bind_ok]
      rfl

/-- The 404 branch of get_ticker_info collapses every inner-try outcome to
    an empty frame: the else-branch raise is caught by the inner
    `except Exception`. -/
theorem swallow404 (b : Bool) (t : String) :
    ((match (if b then (Except.ok emptyDF : Except ToolErr DFrame)
            else Except.error (ToolErr.valueError ("Resource not found: " ++ t))) with
     | .ok df => Except.ok df
     | .error _ => Except.ok emptyDF) : Except ToolErr DFrame) = Except.ok emptyDF := by
  cases b <;> rfl

/-- Claim C1 counterexample: a flow-alerts 2xx response whose body has no
    `data` key raises (KeyError from the `['data']` subscript) instead of
    returning an empty Response Record Set. -/
theorem flow_alerts_missing_data_key_raises_cex :
    get_flow_alerts_call (.success [("ticker", JVal.jStr ("AAPL"))]) =
      Except.error (.normError (.keyError ("data"))) := rfl

/-- Claim C1 (amended): a null or empty `data` yields an empty Response
    Record Set with no error on every endpoint; an absent `data` field also
    yields an empty Record Set on every endpoint except flow-alerts, whose
    `rsp.json()['data']` subscript raises a KeyError. -/
theorem empty_data_normalization_amended (name : String) :
    (get_flow_alerts_call (.success [("data", JVal.jNull)]) = Except.ok emptyDF ∧
      get_flow_alerts_call (.success [("data", JVal.jArr [])]) = Except.ok emptyDF ∧
      get_flow_alerts_call (.success []) =
        Except.error (.normError (.keyError ("data")))) ∧
    (get_ticker_info_call (.success [("data", JVal.jNull)]) = Except.ok emptyDF ∧
      get_ticker_info_call (.success [("data", JVal.jArr [])]) = Except.ok emptyDF ∧
      get_ticker_info_call (.success []) = Except.ok emptyDF) ∧
    (get_stock_state_call (.success [("data", JVal.jNull)]) = Except.ok emptyDF ∧
      get_stock_state_call (.success [("data", JVal.jArr [])]) = Except.ok emptyDF ∧
      get_stock_state_call (.success []) = Except.ok emptyDF) ∧
    (get_institution_holdings_call name (.success [("data", JVal.jNull)]) =
        Except.ok emptyDF ∧
      get_institution_holdings_call name (.success [("data", JVal.jArr [])]) =
        Except.ok emptyDF ∧
      get_institution_holdings_call name (.success []) = Except.ok emptyDF) ∧
    (get_insider_transactions_call (.success [("data", JVal.jNull)]) = Except.ok emptyDF ∧
      get_insider_transactions_call (.success [("data", JVal.jArr [])]) = Except.ok emptyDF ∧
      get_insider_transactions_call (.success []) = Except.ok emptyDF) ∧
    (get_congress_trades_call (.success [("data", JVal.jNull)]) = Except.ok emptyDF ∧
      get_congress_trades_call (.success [("data", JVal.jArr [])]) = Except.ok emptyDF ∧
      get_congress_trades_call (.success []) = Except.ok emptyDF) ∧
    (get_news_headlines_call (.success [("data", JVal.jNull)]) = Except.ok emptyDF ∧
      get_news_headlines_call (.success [("data", JVal.jArr [])]) = Except.ok emptyDF ∧
      get_news_headlines_call (.success []) = Except.ok emptyDF) :=
  ⟨⟨rfl, rfl, rfl⟩, ⟨rfl, rfl, rfl⟩, ⟨rfl, rfl, rfl⟩, ⟨rfl, rfl, rfl⟩,
    ⟨rfl, rfl, rfl⟩, ⟨rfl, rfl, rfl⟩, ⟨rfl, rfl, rfl⟩⟩

/-- Claim C2 (code bug): every tool issues its request with a 30-second
    timeout, but a timeout is classified by the `except httpx.RequestError`
    clause — which precedes the `except httpx.TimeoutException` clause and
    already matches it, TimeoutException being a RequestError subclass — so
    the call raises the ConnectionError network-failure kind instead of the
    distinct TimeoutError kind, whose branch is unreachable. -/
theorem timeout_classified_as_network_error :
    (∀ d : String,
      get_flow_alerts_call (.exc (.transport true d)) =
        Except.error (.connectionError ("Network error: " ++ d)) ∧
      get_ticker_info_call (.exc (.transport true d)) =
        Except.error (.connectionError ("Network error: " ++ d)) ∧
      get_flow_alerts_call (.exc (.transport true d)) ≠
        Except.error (.timeoutError ("Request timed out"))) ∧
    isRequestError (.transport true ("read timed out")) = true ∧
    isTimeoutException (.transport true ("read timed out")) = true ∧
    (∀ d : String,
      get_flow_alerts_call (.exc (.transport false d)) =
        Except.error (.connectionError ("Network error: " ++ d))) ∧
    httpClientTimeoutSeconds = 30 := by
  refine ⟨fun d => ⟨rfl, rfl, fun heq => ?_⟩, rfl, rfl, fun d => rfl, rfl⟩
  have h1 : get_flow_alerts_call (.exc (.transport true d)) =
      Except.error (.connectionError ("Network error: " ++ d)) := rfl
  rw [h1] at heq
  exact absurd heq (by simp)

/-- Claim C8: a ticker-info 404 with an empty (undecodable) body returns an
    empty Response Record Set with no raised error, while a 404 on every
    other endpoint raises the not-found ValueError. -/
theorem ticker_info_404_swallow_vs_not_found (t : String) (j : Option JVal)
    (name : String) :
    (get_ticker_info_call (.exc (.httpStatus 404 ("") none)) = Except.ok emptyDF) ∧
    (get_flow_alerts_call (.exc (.httpStatus 404 t j)) =
      Except.error (.valueError ("Resource not found: " ++ t))) ∧
    (get_stock_state_call (.exc (.httpStatus 404 t j)) =
      Except.error (.valueError ("Resource not found: " ++ t))) ∧
    (get_institution_holdings_call name (.exc (.httpStatus 404 t j)) =
      Except.error (.valueError
        ("Resource not found for institution " ++ name ++ ": " ++ t))) ∧
    (get_insider_transactions_call (.exc (.httpStatus 404 t j)) =
      Except.error (.valueError ("Resource not found: " ++ t))) ∧
    (get_congress_trades_call (.exc (.httpStatus 404 t j)) =
      Except.error (.valueError ("Resource not found: " ++ t))) ∧
    (get_news_headlines_call (.exc (.httpStatus 404 t j)) =
      Except.error (.valueError ("Resource not found: " ++ t))) :=
  ⟨rfl, rfl, rfl, rfl, rfl, rfl, rfl⟩

/-- Claim C9: on every endpoint, HTTP 401 raises the invalid-credential
    ValueError and HTTP 429 raises the rate-limit ValueError. -/
theorem status_401_429_classification (t : String) (j : Option JVal)
    (name : String) :
    (get_flow_alerts_call (.exc (.httpStatus 401 t j)) =
        Except.error (.valueError ("Invalid or missing API key")) ∧
      get_flow_alerts_call (.exc (.httpStatus 429 t j)) =
        Except.error (.valueError ("Rate limit exceeded"))) ∧
    (get_ticker_info_call (.exc (.httpStatus 401 t j)) =
        Except.error (.valueError ("Invalid or missing API key")) ∧
      get_ticker_info_call (.exc (.httpStatus 429 t j)) =
        Except.error (.valueError ("Rate limit exceeded"))) ∧
    (get_stock_state_call (.exc (.httpStatus 401 t j)) =
        Except.error (.valueError ("Invalid or missing API key")) ∧
      get_stock_state_call (.exc (.httpStatus 429 t j)) =
        Except.error (.valueError ("Rate limit exceeded"))) ∧
    (get_institution_holdings_call name (.exc (.httpStatus 401 t j)) =
        Except.error (.valueError ("Invalid or missing API key")) ∧
      get_institution_holdings_call name (.exc (.httpStatus 429 t j)) =
        Except.error (.valueError ("Rate limit exceeded"))) ∧
    (get_insider_transactions_call (.exc (.httpStatus 401 t j)) =
        Except.error (.valueError ("Invalid or missing API key")) ∧
      get_insider_transactions_call (.exc (.httpStatus 429 t j)) =
        Except.error (.valueError ("Rate limit exceeded"))) ∧
    (get_congress_trades_call (.exc (.httpStatus 401 t j)) =
        Except.error (.valueError ("Invalid or missing API key")) ∧
      get_congress_trades_call (.exc (.httpStatus 429 t j)) =
        Except.error (.valueError ("Rate limit exceeded"))) ∧
    (get_news_headlines_call (.exc (.httpStatus 401 t j)) =
        Except.error (.valueError ("Invalid or missing API key")) ∧
      get_news_headlines_call (.exc (.httpStatus 429 t j)) =
        Except.error (.valueError ("Rate limit exceeded"))) :=
  ⟨⟨rfl, rfl⟩, ⟨rfl, rfl⟩, ⟨rfl, rfl⟩, ⟨rfl, rfl⟩, ⟨rfl, rfl⟩, ⟨rfl, rfl⟩, ⟨rfl, rfl⟩⟩

/-- Claim C10: every ticker-info 404 — empty body, non-JSON body, or a JSON
    body whose message is not 'Not Found' — returns an empty Response
    Record Set with no raised error, because the 404 branch's raise is
    caught by the enclosing inner `except Exception`. -/
theorem ticker_info_404_always_empty (t : String) (j : Option JVal) :
    get_ticker_info_call (.exc (.httpStatus 404 t j)) = Except.ok emptyDF := by
  cases j with
  | none => rfl
  | some ed => exact swallow404 (jFalsy ed || msgIsNotFound ed) t

/-- Claim C3 counterexample: congress-trades does not wrap a single
    mapping; pl.DataFrame reads the mapping as columns, so its two-element
    sequence values become two rows, not one. -/
theorem congress_single_mapping_two_rows_cex :
    resHeight (get_congress_trades_call (.success [("data", congressSeqMapping)])) =
      some 2 ∧
    resHeight (get_congress_trades_call (.success [("data", congressSeqMapping)])) ≠
      some 1 := ⟨rfl, by decide⟩

/-- Claim C3 (amended): only ticker-info and stock-state wrap a single
    mapping as a one-element sequence before materializing rows — for them
    a single mapping always yields exactly one row, sequence values
    included.  The remaining endpoints hand the mapping straight to the
    DataFrame constructor, which treats it as a column mapping, so a single
    mapping yields one row only when its values are scalars. -/
theorem single_mapping_wrapping_amended :
    (∀ fs : List (String × JVal), fs ≠ [] →
      resHeight (get_ticker_info_call (.success [("data", JVal.jObj fs)])) = some 1) ∧
    resHeight (get_ticker_info_call (.success [("data", congressSeqMapping)])) = some 1 ∧
    resHeight (get_stock_state_call (.success [("data", stockScalarMapping)])) = some 1 ∧
    resHeight (get_congress_trades_call (.success [("data", congressScalarMapping)])) =
      some 1 := by
  refine ⟨?_, by with_unfolding_all rfl, by with_unfolding_all rfl,
    by with_unfolding_all rfl⟩
  intro fs hfs
  obtain ⟨df, hok, hh⟩ := ticker_single_ok fs hfs
  have hcall : get_ticker_info_call (.success [("data", JVal.jObj fs)]) =
      (get_ticker_info_normalize [("data", JVal.jObj fs)]).mapError ToolErr.normError :=
    rfl
  rw [hcall, hok]
  exact congrArg some hh

/-- Witness for claim C3's amended theorem at a concrete one-field mapping. -/
theorem single_mapping_wrapping_amended_witness :
    resHeight (get_ticker_info_call
      (.success [("data", JVal.jObj [("ticker", JVal.jStr ("AAPL"))])])) = some 1 :=
  single_mapping_wrapping_amended.1 [("ticker", JVal.jStr ("AAPL"))]
    (List.cons_ne_nil _ _)

/-- Claim C4 counterexample: flow-alerts leaves its list parameter
    issue_types under its plain key — no `[]` re-keying marks it as a
    repeated-value parameter. -/
theorem flow_alerts_list_param_not_rekeyed_cex :
    get_flow_alerts_query (flowIssueTypesArgs ["ETF"]) =
      [("issue_types", PVal.pList ["ETF"])] ∧
    listParamsRekeyed (get_flow_alerts_query (flowIssueTypesArgs ["ETF"])) = false :=
  ⟨rfl, by with_unfolding_all rfl⟩

/-- Claim C4 (amended): only get_insider_transactions re-keys its list
    parameter — transaction_codes becomes transaction_codes[] — while the
    flow-alerts list parameters stay under their original keys in the
    outgoing query mapping. -/
theorem list_param_rekeying_amended :
    get_insider_transactions_query insiderTCArgs =
      [("transaction_codes[]", PVal.pList ["P", "S"])] ∧
    listParamsRekeyed (get_insider_transactions_query insiderTCArgs) = true ∧
    (∀ xs : List String,
      lookupVal (get_flow_alerts_query (flowIssueTypesArgs xs)) ("issue_types") =
        some (PVal.pList xs) ∧
      lookupVal (get_flow_alerts_query (flowIssueTypesArgs xs)) ("issue_types[]") =
        none) :=
  ⟨rfl, by with_unfolding_all rfl, fun _xs => ⟨rfl, rfl⟩⟩

/-- Claim C6 counterexample: a stock-state response whose single record has
    no close field aborts with a column-not-found error instead of yielding
    a no-value for that field. -/
theorem stock_state_absent_field_aborts_cex :
    get_stock_state_call (.success [("data", JVal.jObj [("ticker", JVal.jStr ("AAPL"))])]) =
      Except.error (.normError (.columnNotFound ("close"))) := rfl

/-- Claim C6 (amended): the strict=False casts make a malformed value — or
    a field missing from one record while present in another — a null, on
    every endpoint except flow-alerts, whose default-strict casts raise on
    a malformed value.  But only ticker-info guards each coerced column
    with a presence check and so tolerates a field absent from every
    record; on the other tolerant endpoints such a field aborts the call
    with a column-not-found error. -/
theorem field_coercion_tolerance_amended :
    (∀ fs : List (String × JVal), fs ≠ [] →
      ∃ df, get_ticker_info_call (.success [("data", JVal.jObj fs)]) = Except.ok df) ∧
    resCell (get_stock_state_call (.success [("data", stockMalformedCloseRecord)]))
      ("close") = some Cell.cNull ∧
    resCellAt (get_stock_state_call (.success [("data", stockTwoRecords)]))
      ("close") 1 = some Cell.cNull ∧
    resCellAt (get_stock_state_call (.success [("data", stockTwoRecords)]))
      ("close") 0 = some (Cell.cDec (403 / 2)) ∧
    resHeight (get_stock_state_call (.success [("data", stockTwoRecords)])) = some 2 ∧
    get_institution_holdings_call ("VANGUARD")
      (.success [("data", JVal.jArr [JVal.jObj [("ticker", JVal.jStr ("AAPL"))]])]) =
      Except.error (.normError (.columnNotFound ("avg_price"))) ∧
    get_flow_alerts_call (.success [("data", JVal.jArr [flowMalformedCreatedAtRecord])]) =
      Except.error (.normError (.invalidCast ("created_at"))) := by
  refine ⟨?_, by with_unfolding_all rfl, by with_unfolding_all rfl,
    by with_unfolding_all rfl, by with_unfolding_all rfl,
    by with_unfolding_all rfl, by with_unfolding_all rfl⟩
  intro fs hfs
  obtain ⟨df, hok, _⟩ := ticker_single_ok fs hfs
  refine ⟨df, ?_⟩
  have hcall : get_ticker_info_call (.success [("data", JVal.jObj fs)]) =
      (get_ticker_info_normalize [("data", JVal.jObj fs)]).mapError ToolErr.normError :=
    rfl
  rw [hcall, hok]
  rfl

/-- Witness for claim C6's amended theorem: ticker-info tolerates a record
    that has none of its coerced columns. -/
theorem field_coercion_tolerance_amended_witness :
    ∃ df, get_ticker_info_call
      (.success [("data", JVal.jObj [("sector", JVal.jStr ("Technology"))])]) =
      Except.ok df :=
  field_coercion_tolerance_amended.1 [("sector", JVal.jStr ("Technology"))]
    (List.cons_ne_nil _ _)

/-- Claim C7: the tape/event timestamp fields (flow-alerts and
    news-headlines created_at, stock-state tape_time) are converted from
    their source UTC reading to America/New_York — the 2024-01-15T20:30:00Z
    instant reads 15:30 on the same January date in the reporting zone —
    while the date-only fields expiry and next_earnings_date stay plain
    dates carrying no zone. -/
theorem tape_timestamp_eastern_conversion :
    (resCell (get_flow_alerts_call (.success [("data", JVal.jArr [flowTapeRecord])]))
      ("created_at") = some (Cell.cDatetime 1705350600 (some ("America/New_York")))) ∧
    ((resCell (get_flow_alerts_call (.success [("data", JVal.jArr [flowTapeRecord])]))
      ("created_at")).bind localClock = some (2024, 1, 15, 15, 30, 0)) ∧
    (resCell (get_flow_alerts_call (.success [("data", JVal.jArr [flowTapeRecord])]))
      ("expiry") = some (Cell.cDate 2025 1 17)) ∧
    (resCell (get_flow_alerts_call (.success [("data", JVal.jArr [flowTapeRecord])]))
      ("next_earnings_date") = some (Cell.cDate 2024 4 25)) ∧
    (resCell (get_stock_state_call (.success [("data", stockScalarMapping)]))
      ("tape_time") = some (Cell.cDatetime 1705350600 (some ("America/New_York")))) ∧
    ((resCell (get_stock_state_call (.success [("data", stockScalarMapping)]))
      ("tape_time")).bind localClock = some (2024, 1, 15, 15, 30, 0)) ∧
    (resCell (get_news_headlines_call (.success [("data", JVal.jArr [newsRecord])]))
      ("created_at") = some (Cell.cDatetime 1705350600 (some ("America/New_York")))) ∧
    localClock (Cell.cDatetime 1705350600 none) = some (2024, 1, 15, 20, 30, 0) := by
  refine ⟨?_, ?_, ?_, ?_, ?_, ?_, ?_, ?_⟩ <;> with_unfolding_all rfl

/-- Claim C5: a flow-alerts parameter whose provided value is None (absent)
    or equals its declared default under Python value equality never
    appears in the outgoing query mapping; a parameter set to a non-None
    value differing from its default always appears; in particular,
    is_call=true with every other parameter at default yields a query
    mapping holding exactly is_call=true. -/
theorem flow_alerts_param_filtering (args : String → PVal) :
    (∀ p : ParamSpec, p ∈ flowAlertsSchema → pyEq (args p.pname) p.dflt = true →
      p.pname ∉ queryKeys (get_flow_alerts_query args)) ∧
    (∀ p : ParamSpec, p ∈ flowAlertsSchema → args p.pname ≠ PVal.pNone →
      pyEq (args p.pname) p.dflt = false →
      (p.pname, args p.pname) ∈ get_flow_alerts_query args) ∧
    get_flow_alerts_query flowIsCallArgs = [("is_call", PVal.pBool true)] := by
  refine ⟨?_, ?_, by with_unfolding_all rfl⟩
  · intro p hp heq hmem
    obtain ⟨q, hq, hname, hinc⟩ := mem_queryKeys_buildQuery.mp hmem
    have hqp : q = p :=
      List.inj_on_of_nodup_map flowAlertsSchema_names_nodup hq hp hname
    subst hqp
    unfold includeParam at hinc
    rw [heq] at hinc
    simp at hinc
  · intro p hp hne hneq
    have hinc : includeParam ["url", "frame"] p (args p.pname) = true := by
      unfold includeParam
      rw [hneq, flowAlertsSchema_not_excluded p hp]
      simp [bne_iff_ne, hne]
    exact mem_buildQuery_of hp hinc

/-- Witness for claim C5 at the is_call=true scenario: limit stays at its
    default 200 and is omitted, is_call appears. -/
theorem flow_alerts_param_filtering_witness :
    (("limit" : String) ∉ queryKeys (get_flow_alerts_query flowIsCallArgs)) ∧
    ("is_call", PVal.pBool true) ∈ get_flow_alerts_query flowIsCallArgs := by
  constructor
  · exact (flow_alerts_param_filtering flowIsCallArgs).1 ⟨"limit", PVal.pInt 200⟩
      (by decide) (by decide)
  · exact (flow_alerts_param_filtering flowIsCallArgs).2.1 ⟨"is_call", PVal.pBool false⟩
      (by decide) (by decide) (by decide)
